import Mathlib

/-!
Shallow embedding of the multimodal RAG pipeline
(src/preprocess_docs.py, src/multimodal_rag_jina.py).

External collaborators (the Unstructured partitioning service, the Jina
embedding service, the Qdrant backend, the OpenAI completion endpoint) are
black boxes: each is represented by an oracle parameter, while every line of
orchestration code in the repository is translated directly. Mutation of the
in-memory Qdrant client is modelled by explicit state passing; logging and
collection creation are recorded in an event trace; Python exceptions become
an `Except` error channel.
-/

/-- Python exception values that the pipeline can raise or catch. -/
inductive PyExc where
  | valueError (msg : String)
  | typeError (msg : String)
  | connectionError (msg : String)
  | keyError (key : String)
  | indexError (msg : String)
  | unexpected (msg : String)
deriving DecidableEq

/-- str(e) for an exception object, as interpolated into the log f-strings. -/
def excMsg : PyExc → String
  | PyExc.valueError m => m
  | PyExc.typeError m => m
  | PyExc.connectionError m => m
  | PyExc.keyError k => k
  | PyExc.indexError m => m
  | PyExc.unexpected m => m

/-- A LangChain Document: `page_content` text plus a metadata mapping
(string keys to string-rendered values). -/
structure Document where
  page_content : String
  metadata : List (String × String)
deriving DecidableEq

/-- Python dict lookup `m.get(k)`: `none` when the key is absent. -/
def dictGet (m : List (String × String)) (k : String) : Option String :=
  match m with
  | [] => none
  | p :: rest => if p.1 = k then some p.2 else dictGet rest k

/-- Python dict lookup with default, `m.get(k, d)`. -/
def dictGetD (m : List (String × String)) (k d : String) : String :=
  (dictGet m k).getD d

/-- How an optional value prints inside a Python f-string: `None` when absent. -/
def optStr (o : Option String) : String :=
  match o with
  | none => "None"
  | some s => s

/-- Python `sep.join(parts)` (used as `"\n\n".join([...])` in the source). -/
def strJoin (sep : String) : List String → String
  | [] => ""
  | [a] => a
  | a :: b :: rest => a ++ sep ++ strJoin sep (b :: rest)

/-- Qdrant distance metrics (qdrant_client.http.models.Distance). -/
inductive Distance where
  | cosine
  | euclid
  | dot
deriving DecidableEq

/-- Qdrant VectorParams: dimensionality and metric, fixed at creation time. -/
structure CollectionConfig where
  size : Nat
  distance : Distance
deriving DecidableEq

/-- Observable events of a run: loguru log lines and backend collection
creation. -/
inductive Event where
  | logInfo (msg : String)
  | logSuccess (msg : String)
  | logError (msg : String)
  | createCollection (collection_name : String) (config : CollectionConfig)
deriving DecidableEq

/-- The in-memory Qdrant client state: named collection configurations plus
the stored points, each point being (collection name, id, payload document). -/
structure QdrantState where
  collections : List (String × CollectionConfig)
  points : List (String × String × Document)
deriving DecidableEq

/-- The JinaEmbeddings client object (construction requires the api key). -/
structure EmbeddingClient where
  api_key : String
  model_name : String
deriving DecidableEq

/-- The QdrantVectorStore handle: the collection it writes to and the
embedding client it uses. -/
structure VectorStore where
  collection_name : String
  embedding : EmbeddingClient
deriving DecidableEq

/-- Configuration lookup for a named collection. -/
def lookupCfg : List (String × CollectionConfig) → String → Option CollectionConfig
  | [], _ => none
  | p :: rest, n => if p.1 = n then some p.2 else lookupCfg rest n

/-- Configuration lookup for a named collection of the client state. -/
def getCollection (st : QdrantState) (n : String) : Option CollectionConfig :=
  lookupCfg st.collections n

/-- Insert a batch of (id, document) points into a collection: the model of a
successful `vector_store.add_documents(documents=..., ids=...)` backend call.
Only `points` changes; the collection configuration is untouched. -/
def insertPoints (st : QdrantState) (n : String) (ids : List String)
    (docs : List Document) : QdrantState :=
  ⟨st.collections, st.points ++ List.zipWith (fun i d => (n, i, d)) ids docs⟩

/-- The payload documents currently stored in a named collection. -/
def pointsOf (st : QdrantState) (n : String) : List Document :=
  st.points.filterMap (fun t => if t.1 = n then some t.2.2 else none)

/-- The environment-variable lookup `os.environ[k]` succeeds exactly when the
key is present. -/
def envGet (env : List (String × String)) (k : String) : Option String :=
  dictGet env k

/-- `load_docs` (src/preprocess_docs.py lines 24-44). The UnstructuredLoader
backend is external; `loader` is the oracle for its `load()` call. There is no
handler, so a loader failure propagates; on success a success line is logged
(the source f-string lacks a space before "sucessfully"). -/
def load_docs (loader : String → Except PyExc (List Document))
    (file_path : String) : Except PyExc (List Document) × List Event :=
  match loader file_path with
  | Except.error e => (Except.error e, [])
  | Except.ok d =>
      (Except.ok d,
       [Event.logSuccess ("Document " ++ file_path ++ "sucessfully loaded.")])

/-- The uuid list `[str(uuid4()) for _ in range(len(doc))]`: `supply` is the
stream of fresh uuid strings the process draws from and `ctr` counts how many
were drawn before this call. -/
def genUuids (supply : Nat → String) (ctr n : Nat) : List String :=
  (List.range n).map (fun i => supply (ctr + i))

/-- `set_embeddings` (src/preprocess_docs.py lines 47-85). Reads
JINA_API_KEY from the environment (a KeyError if absent, raised while
constructing the embedding client and before anything else happens), creates a
fresh in-memory client, creates the collection with VectorParams size 768 and
cosine distance, builds the store handle, and generates one uuid per document. -/
def set_embeddings (env : List (String × String)) (supply : Nat → String)
    (ctr : Nat) (doc : List Document) (collection_name : String) :
    Except PyExc (QdrantState × VectorStore × List String) × List Event :=
  match envGet env "JINA_API_KEY" with
  | none =>
      (Except.error (PyExc.keyError "JINA_API_KEY"),
       [Event.logInfo "Setting Jina Model."])
  | some key =>
      let embeddings : EmbeddingClient := ⟨key, "jina-embeddings-v2-base-en"⟩
      let cfg : CollectionConfig := ⟨768, Distance.cosine⟩
      let st : QdrantState := ⟨[(collection_name, cfg)], []⟩
      let vector_store : VectorStore := ⟨collection_name, embeddings⟩
      let uuids := genUuids supply ctr doc.length
      (Except.ok (st, vector_store, uuids),
       [Event.logInfo "Setting Jina Model.",
        Event.logInfo "Creating collection and setting Client.",
        Event.createCollection collection_name cfg,
        Event.logInfo "Setting Vector Store object.",
        Event.logInfo "Generating ids for the document content.",
        Event.logSuccess "Qdrant Embedding Environment set!"])

/-- Python value returned by a function: `add_doc` has no return statement and
so returns `None` on every normal exit. -/
inductive PyVal where
  | none
  | str (s : String)
deriving DecidableEq

/-- The log message each except-branch of `add_doc` emits (ValueError,
TypeError, ConnectionError, then the catch-all Exception branch, in source
order; the source message spells "ocurred whhile", and its first message
contracts "There is"). -/
def catchMsg (file_name : String) (e : PyExc) : String :=
  match e with
  | PyExc.valueError m =>
      "There is an error while handling the document list: " ++ m
  | PyExc.typeError m => "Type error while handling document list: " ++ m
  | PyExc.connectionError m =>
      "Connection error while communicating with Vector Store: " ++ m
  | e =>
      "Unexpected error ocurred whhile adding document " ++ file_name ++ ": "
        ++ excMsg e

/-- `add_doc` (src/preprocess_docs.py lines 88-111). The statement
`file_name = doc[0].metadata.get("filename")` executes before the try block,
so an empty `doc` raises IndexError out of the function. Inside the try,
`outcome` is the oracle for the external `add_documents` backend call: on
success the batch is stored and a success line logged; any exception is caught
and logged (all-or-nothing: the state is unchanged), and the function falls
through returning `None`. -/
def add_doc (vector_store : VectorStore) (st : QdrantState)
    (doc : List Document) (ids : List String) (outcome : Except PyExc Unit) :
    Except PyExc (PyVal × QdrantState) × List Event :=
  match doc with
  | [] => (Except.error (PyExc.indexError "list index out of range"), [])
  | d :: _ =>
      let file_name := optStr (dictGet d.metadata "filename")
      match outcome with
      | Except.ok _ =>
          (Except.ok (PyVal.none,
             insertPoints st vector_store.collection_name ids doc),
           [Event.logSuccess ("Document " ++ file_name
              ++ " added to vector store")])
      | Except.error e =>
          (Except.ok (PyVal.none, st), [Event.logError (catchMsg file_name e)])

/-- Modelled from the spec: `vector_store.similarity_search(query, k)` is
implemented entirely by the external Qdrant/LangChain backend (only its call
site, src/multimodal_rag_jina.py line 78, is in the repository). Following §6
("similarity search (query vector, k) → ranked (id, score, payload) list") and
§3 ("ordering by decreasing similarity, ties unspecified — defined by the
external index"), `rank` is the backend-defined similarity ranking of the
stored payloads, and the call returns the k best-ranked stored chunks. -/
def similarity_search (st : QdrantState) (vs : VectorStore)
    (rank : List Document → List Document) (query : String) (k : Nat) :
    List Document :=
  (rank (pointsOf st vs.collection_name)).take k

/-- One message of the chat request. -/
structure ChatMessage where
  role : String
  content : String
deriving DecidableEq

/-- The request sent to `openai.chat.completions.create` (temperature is the
rational value of the source literal 0.7). -/
structure ChatRequest where
  model : String
  messages : List ChatMessage
  max_tokens : Nat
  temperature : ℚ
deriving DecidableEq

/-- One element of `response.choices`; `message_content` is
`choice.message.content`. -/
structure Choice where
  message_content : String
deriving DecidableEq

/-- The per-document piece of the context string:
`"Page " + metadata.get("page_number", "Unknown") + ": " + page_content`. -/
def fmtDoc (doc : Document) : String :=
  "Page " ++ dictGetD doc.metadata "page_number" "Unknown" ++ ": "
    ++ doc.page_content

/-- The context string of src/multimodal_rag_jina.py lines 41-46:
`"\n\n".join(...)` over the formatted retrieved documents, in order. -/
def buildContext (retrieved_docs : List Document) : String :=
  strJoin "\n\n" (retrieved_docs.map fmtDoc)

/-- The fixed instructional preamble of the user prompt (source lines 48-49). -/
def promptPreamble : String :=
  "You are an AI assistant helping answer questions based on provided context. The context contains information extracted from multiple pages of a document. Please use this context to provide a detailed and accurate response to the question.\n\n"

/-- The user prompt (source lines 47-53): preamble, context, question, and the
trailing Answer cue. -/
def buildPrompt (query : String) (retrieved_docs : List Document) : String :=
  promptPreamble ++ "Context: " ++ buildContext retrieved_docs
    ++ "\n\nQuestion: " ++ query ++ "\n\nAnswer:"

/-- The single request `generate_answer_with_gpt4` issues (source lines
55-63): model gpt-4o, a fixed system message plus the user prompt, 300 max
tokens, temperature 0.7. -/
def gptRequest (query : String) (retrieved_docs : List Document) : ChatRequest :=
  ⟨"gpt-4o",
   [⟨"system", "You are a helpful assistant."⟩,
    ⟨"user", buildPrompt query retrieved_docs⟩],
   300, 7 / 10⟩

/-- `generate_answer_with_gpt4` (src/multimodal_rag_jina.py lines 25-64).
`completion` is the oracle for the OpenAI endpoint; there is no handler, so a
failure of the call propagates, and on success the function returns
`response.choices[0].message.content` (an IndexError if choices is empty).
The second component records every request issued. -/
def generate_answer_with_gpt4
    (completion : ChatRequest → Except PyExc (List Choice))
    (query : String) (retrieved_docs : List Document) :
    Except PyExc String × List ChatRequest :=
  let req := gptRequest query retrieved_docs
  match completion req with
  | Except.error e => (Except.error e, [req])
  | Except.ok [] =>
      (Except.error (PyExc.indexError "list index out of range"), [req])
  | Except.ok (c :: _) => (Except.ok c.message_content, [req])

/-- The hard-coded input file path of the run (source line 68). -/
def FILE_PATH : String := "./data/relatorio_b3_2023.pdf"

/-- The hard-coded query of the run (source line 77). -/
def query_model : String := "How many pages does the document have?"

/-- The module-level pipeline of src/multimodal_rag_jina.py lines 67-82:
load, set up embeddings, add documents, search with k = 3, generate. Only
`add_doc` contains a handler; `searchOutcome` is the oracle for a failure of
the backend search call (its call site has no handler), and a successful
search returns the ranked stored chunks. The second component records the
generation requests issued. -/
def mainRun (env : List (String × String))
    (loader : String → Except PyExc (List Document)) (supply : Nat → String)
    (addOutcome : Except PyExc Unit) (searchOutcome : Except PyExc Unit)
    (rank : List Document → List Document)
    (completion : ChatRequest → Except PyExc (List Choice)) :
    Except PyExc String × List ChatRequest :=
  match (load_docs loader FILE_PATH).1 with
  | Except.error e => (Except.error e, [])
  | Except.ok doc =>
      match (set_embeddings env supply 0 doc "qdrant_test").1 with
      | Except.error e => (Except.error e, [])
      | Except.ok (st, vector_store, uuids) =>
          match (add_doc vector_store st doc uuids addOutcome).1 with
          | Except.error e => (Except.error e, [])
          | Except.ok (_, st2) =>
              match searchOutcome with
              | Except.error e => (Except.error e, [])
              | Except.ok _ =>
                  let results :=
                    similarity_search st2 vector_store rank query_model 3
                  generate_answer_with_gpt4 completion query_model results

/-- The spec-side rendering of one retrieved chunk (§4.4 step 2): `"Page
{page_number}: "` before its text, the literal token "Unknown" when the
page_number metadata key is absent. Stated independently of `fmtDoc` for the
refinement comparison. -/
def specRender (d : Document) : String :=
  match dictGet d.metadata "page_number" with
  | none => "Page Unknown: " ++ d.page_content
  | some p => "Page " ++ p ++ ": " ++ d.page_content

/-- The spec-side context string (§4.4 step 2): the rendered chunks joined by
a blank line, preserving the retrieval-ranked order. -/
def contextSpec : List Document → String
  | [] => ""
  | [d] => specRender d
  | d :: b :: rest => specRender d ++ "\n\n" ++ contextSpec (b :: rest)

/-! Concrete sample values used by counterexamples and witnesses. -/

/-- Sample retrieved chunk from page 5 (the C3 chunk of the spec example). -/
def docPage5 : Document := ⟨"C3 text", [("page_number", "5")]⟩

/-- Sample retrieved chunk from page 1 (the C1 chunk of the spec example). -/
def docPage1 : Document := ⟨"C1 text", [("page_number", "1")]⟩

/-- Sample chunk whose metadata lacks the page_number key. -/
def docNoPage : Document := ⟨"no page text", [("filename", "relatorio_b3_2023.pdf")]⟩

/-- Sample environment holding the Jina key. -/
def envEx : List (String × String) := [("JINA_API_KEY", "k")]

/-- Sample fresh-uuid stream: the string of n letters a at index n. -/
def supplyEx : Nat → String := fun n => String.mk (List.replicate n 'a')

/-- Sample vector store handle. -/
def vsEx : VectorStore := ⟨"qdrant_test", ⟨"k", "jina-embeddings-v2-base-en"⟩⟩

/-- Sample client state holding the freshly created collection. -/
def stEx : QdrantState := ⟨[("qdrant_test", ⟨768, Distance.cosine⟩)], []⟩

/-- Sample loader oracle returning two chunks. -/
def loaderEx : String → Except PyExc (List Document) :=
  fun _ => Except.ok [docPage5, docPage1]

/-- Sample failing loader oracle. -/
def loaderFail : String → Except PyExc (List Document) :=
  fun _ => Except.error (PyExc.connectionError "partition service unreachable")

/-- Sample completion oracle always answering with one choice. -/
def completionEx : ChatRequest → Except PyExc (List Choice) :=
  fun _ => Except.ok [⟨"forty two"⟩]

/-- Sample backend ranking: the identity permutation. -/
def rankEx : List Document → List Document := fun l => l

/-! Theorems. -/

/-- Each document renders the same under the source fmtDoc and the spec
rendering: "Unknown" exactly when the page_number key is absent. -/
theorem fmtDoc_eq_specRender (d : Document) : fmtDoc d = specRender d := by
  unfold fmtDoc specRender dictGetD
  cases dictGet d.metadata "page_number" with
  | none => rfl
  | some p => rfl

/-- Claim C3: the context string built by generate_answer_with_gpt4 is the
texts of the retrieved documents in the given ranked order, each formatted as
"Page p: text" with the literal "Unknown" when the page_number key is absent,
joined by a blank line; in particular the example of the spec reads
"Page 5: C3 text\n\nPage 1: C1 text". -/
theorem buildContext_refines_spec :
    (∀ docs : List Document, buildContext docs = contextSpec docs) ∧
    buildContext [docPage5, docPage1] = "Page 5: C3 text\n\nPage 1: C1 text" ∧
    buildContext [docNoPage] = "Page Unknown: no page text" := by
  refine ⟨?_, rfl, rfl⟩
  intro docs
  induction docs with
  | nil => rfl
  | cons d rest ih =>
    cases rest with
    | nil =>
        show fmtDoc d = specRender d
        exact fmtDoc_eq_specRender d
    | cons b rest2 =>
        show fmtDoc d ++ "\n\n" ++ buildContext (b :: rest2)
            = specRender d ++ "\n\n" ++ contextSpec (b :: rest2)
        rw [fmtDoc_eq_specRender d, ih]

/-- Claim C7: generate_answer_with_gpt4 issues exactly one request, holding a
system message "You are a helpful assistant." and one user message made of the
fixed preamble, the assembled context, the literal query and the trailing
Answer cue, with max_tokens 300 and temperature 0.7, and returns the single
generated text (choices[0]). -/
theorem gpt4_request_spec (completion : ChatRequest → Except PyExc (List Choice))
    (query : String) (docs : List Document) :
    (generate_answer_with_gpt4 completion query docs).2 = [gptRequest query docs] ∧
    (gptRequest query docs).model = "gpt-4o" ∧
    (gptRequest query docs).messages =
      [⟨"system", "You are a helpful assistant."⟩,
       ⟨"user", promptPreamble ++ "Context: " ++ buildContext docs
          ++ "\n\nQuestion: " ++ query ++ "\n\nAnswer:"⟩] ∧
    (gptRequest query docs).max_tokens = 300 ∧
    (gptRequest query docs).temperature = 7 / 10 ∧
    (∀ c cs, completion (gptRequest query docs) = Except.ok (c :: cs) →
      (generate_answer_with_gpt4 completion query docs).1
        = Except.ok c.message_content) := by
  refine ⟨?_, rfl, rfl, rfl, rfl, ?_⟩
  · cases h : completion (gptRequest query docs) with
    | error e => simp [generate_answer_with_gpt4, h]
    | ok l => cases l with
      | nil => simp [generate_answer_with_gpt4, h]
      | cons c cs => simp [generate_answer_with_gpt4, h]
  · intro c cs h
    simp [generate_answer_with_gpt4, h]

/-- Witness for C7 at a concrete oracle, query and document list. -/
theorem gpt4_request_spec_witness :
    (generate_answer_with_gpt4 completionEx "q" [docPage5]).1
      = Except.ok "forty two" :=
  (gpt4_request_spec completionEx "q" [docPage5]).2.2.2.2.2 ⟨"forty two"⟩ [] rfl

/-- Claim C8: with JINA_API_KEY absent from the environment, set_embeddings
fails with the KeyError raised while constructing the embedding client: the
trace holds only the first log line, so no collection was created and the
error result carries no identifiers. -/
theorem set_embeddings_missing_key_fails_fast (env : List (String × String))
    (supply : Nat → String) (ctr : Nat) (doc : List Document) (name : String)
    (h : envGet env "JINA_API_KEY" = none) :
    set_embeddings env supply ctr doc name =
      (Except.error (PyExc.keyError "JINA_API_KEY"),
       [Event.logInfo "Setting Jina Model."]) ∧
    (∀ cfg, Event.createCollection name cfg
        ∉ (set_embeddings env supply ctr doc name).2) := by
  have h1 : set_embeddings env supply ctr doc name =
      (Except.error (PyExc.keyError "JINA_API_KEY"),
       [Event.logInfo "Setting Jina Model."]) := by
    unfold set_embeddings
    rw [h]
  refine ⟨h1, ?_⟩
  intro cfg
  rw [h1]
  simp

/-- Witness for C8 at a concrete empty environment. -/
theorem set_embeddings_missing_key_fails_fast_witness :
    set_embeddings [] supplyEx 0 [docPage5] "qdrant_test" =
      (Except.error (PyExc.keyError "JINA_API_KEY"),
       [Event.logInfo "Setting Jina Model."]) :=
  (set_embeddings_missing_key_fails_fast [] supplyEx 0 [docPage5]
    "qdrant_test" rfl).1

/-- Claim C10: whenever add_doc returns normally its value is None, both on a
successful insert and on a swallowed failure, so the caller cannot tell the
two apart from the returned value. -/
theorem add_doc_returns_none (vs : VectorStore) (st : QdrantState)
    (doc : List Document) (ids : List String) (outcome : Except PyExc Unit)
    (r : PyVal) (st2 : QdrantState)
    (h : (add_doc vs st doc ids outcome).1 = Except.ok (r, st2)) :
    r = PyVal.none ∧
    (∀ e, ∃ st3, (add_doc vs st doc ids (Except.error e)).1
        = Except.ok (PyVal.none, st3)) := by
  cases doc with
  | nil => simp [add_doc] at h
  | cons d rest =>
    refine ⟨?_, fun e => ⟨st, rfl⟩⟩
    cases outcome with
    | ok u =>
        have := h
        simp [add_doc] at this
        exact this.1.symm
    | error e =>
        have := h
        simp [add_doc] at this
        exact this.1.symm

/-- Witness for C10 at a concrete successful insert. -/
theorem add_doc_returns_none_witness :
    ∃ st3, (add_doc vsEx stEx [docNoPage] ["a"]
        (Except.error (PyExc.valueError "bad value"))).1
      = Except.ok (PyVal.none, st3) :=
  (add_doc_returns_none vsEx stEx [docNoPage] ["a"] (Except.ok ())
    PyVal.none (insertPoints stEx "qdrant_test" ["a"] [docNoPage]) rfl).2
    (PyExc.valueError "bad value")

/-- Counterexample to claim C1 as stated: on the empty document list the
statement doc[0].metadata.get("filename"), executed before the try block,
raises IndexError out of add_doc instead of returning normally. -/
theorem add_doc_empty_doc_raises :
    (add_doc vsEx stEx [] [] (Except.ok ())).1 =
      Except.error (PyExc.indexError "list index out of range") := rfl

/-- Claim C1 (amended to non-empty document lists): for every vector store,
non-empty document list and id list, add_doc returns normally; any exception
raised by the insertion call is caught, and an error log entry records it. -/
theorem add_doc_nonempty_never_raises (vs : VectorStore) (st : QdrantState)
    (doc : List Document) (ids : List String) (outcome : Except PyExc Unit)
    (h : doc ≠ []) :
    (∃ r, (add_doc vs st doc ids outcome).1 = Except.ok r) ∧
    (∀ e, outcome = Except.error e →
      ∃ d rest, doc = d :: rest ∧
        (add_doc vs st doc ids outcome).2 =
          [Event.logError
            (catchMsg (optStr (dictGet d.metadata "filename")) e)]) := by
  cases doc with
  | nil => exact absurd rfl h
  | cons d rest =>
    constructor
    · cases outcome with
      | ok u => exact ⟨_, rfl⟩
      | error e => exact ⟨_, rfl⟩
    · intro e he
      subst he
      exact ⟨d, rest, rfl, rfl⟩

/-- Witness for the amended C1 at a concrete failing insertion. -/
theorem add_doc_nonempty_never_raises_witness :
    ∃ r, (add_doc vsEx stEx [docNoPage] ["a"]
        (Except.error (PyExc.typeError "bad item"))).1 = Except.ok r :=
  (add_doc_nonempty_never_raises vsEx stEx [docNoPage] ["a"]
    (Except.error (PyExc.typeError "bad item")) (List.cons_ne_nil _ _)).1

/-- Inversion of a successful set_embeddings run: the fresh client state holds
exactly the one collection with size 768 and cosine distance, the handle is
bound to the given collection name and the Jina model, and the ids are the
next doc.length entries of the uuid stream. -/
theorem set_embeddings_ok_inv (env : List (String × String))
    (supply : Nat → String) (ctr : Nat) (doc : List Document) (name : String)
    (st : QdrantState) (vs : VectorStore) (ids : List String)
    (h : (set_embeddings env supply ctr doc name).1 = Except.ok (st, vs, ids)) :
    st = ⟨[(name, ⟨768, Distance.cosine⟩)], []⟩ ∧
    vs.collection_name = name ∧
    ids = genUuids supply ctr doc.length ∧
    (∃ key, envGet env "JINA_API_KEY" = some key ∧
      vs = ⟨name, ⟨key, "jina-embeddings-v2-base-en"⟩⟩) := by
  unfold set_embeddings at h
  cases hk : envGet env "JINA_API_KEY" with
  | none => rw [hk] at h; simp at h
  | some key =>
      rw [hk] at h
      simp only [Except.ok.injEq, Prod.mk.injEq] at h
      obtain ⟨rfl, rfl, rfl⟩ := h
      exact ⟨rfl, rfl, rfl, key, rfl, rfl⟩

/-- The uuid stream of the sample is injective: distinct indices give strings
of distinct lengths. -/
theorem supplyEx_injective : Function.Injective supplyEx := by
  intro m n h
  have h2 : List.replicate m 'a' = List.replicate n 'a' := congrArg String.data h
  have h3 := congrArg List.length h2
  simpa using h3

/-- Claim C2: a successful set_embeddings run returns exactly one identifier
per chunk, pairwise distinct (the uuid stream never repeats), and the i-th
identifier is the one drawn for the i-th chunk, in chunk order. -/
theorem set_embeddings_ids_unique_ordered (env : List (String × String))
    (supply : Nat → String) (ctr : Nat) (doc : List Document) (name : String)
    (st : QdrantState) (vs : VectorStore) (ids : List String)
    (hinj : Function.Injective supply)
    (h : (set_embeddings env supply ctr doc name).1 = Except.ok (st, vs, ids)) :
    ids.length = doc.length ∧ ids.Nodup ∧
    ∀ i, i < doc.length → ids[i]? = some (supply (ctr + i)) := by
  obtain ⟨-, -, hids, -⟩ := set_embeddings_ok_inv env supply ctr doc name
    st vs ids h
  subst hids
  refine ⟨by simp [genUuids], ?_, ?_⟩
  · refine List.Nodup.map ?_ (List.nodup_range _)
    intro a b hab
    exact Nat.add_left_cancel (hinj hab)
  · intro i hi
    simp [genUuids, List.getElem?_range, hi]

/-- Witness for C2 at a concrete two-chunk run. -/
theorem set_embeddings_ids_unique_ordered_witness :
    (genUuids supplyEx 0 2).Nodup :=
  (set_embeddings_ids_unique_ordered envEx supplyEx 0 [docPage5, docPage1]
    "qdrant_test" stEx vsEx (genUuids supplyEx 0 2)
    supplyEx_injective rfl).2.1

/-- Claim C5: set_embeddings creates the collection with dimensionality 768
and the cosine metric, and indexing (the only state-changing pipeline step
afterwards) never alters the collection configuration, so every inserted item
is stored under that configuration; search is a pure read of the state. -/
theorem collection_config_fixed (env : List (String × String))
    (supply : Nat → String) (ctr : Nat) (doc : List Document) (name : String)
    (st : QdrantState) (vs : VectorStore) (ids : List String)
    (h : (set_embeddings env supply ctr doc name).1 = Except.ok (st, vs, ids)) :
    vs.collection_name = name ∧
    getCollection st name = some ⟨768, Distance.cosine⟩ ∧
    (∀ n2 ids2 docs2,
      (insertPoints st n2 ids2 docs2).collections = st.collections ∧
      getCollection (insertPoints st n2 ids2 docs2) name
        = some ⟨768, Distance.cosine⟩) := by
  obtain ⟨hst, hvs, -, -⟩ := set_embeddings_ok_inv env supply ctr doc name
    st vs ids h
  subst hst
  refine ⟨hvs, by simp [getCollection, lookupCfg], ?_⟩
  intro n2 ids2 docs2
  exact ⟨rfl, by simp [getCollection, insertPoints, lookupCfg]⟩

/-- Witness for C5 at a concrete run. -/
theorem collection_config_fixed_witness :
    getCollection stEx "qdrant_test" = some ⟨768, Distance.cosine⟩ :=
  (collection_config_fixed envEx supplyEx 0 [docPage5] "qdrant_test"
    stEx vsEx (genUuids supplyEx 0 1) rfl).2.1

/-- Claim C9: the loader is a function of the file path alone, so two loads of
the same path yield the same chunk sequence (content and metadata alike),
while the identifier lists of two successive set_embeddings runs over those
chunks differ: the second run draws from fresh positions of the uuid stream. -/
theorem loader_deterministic_fresh_ids
    (loader : String → Except PyExc (List Document)) (path : String)
    (env : List (String × String)) (supply : Nat → String)
    (doc : List Document) (name : String)
    (hinj : Function.Injective supply) (hdoc : doc ≠ []) :
    load_docs loader path = load_docs loader path ∧
    (∀ st1 vs1 ids1 st2 vs2 ids2,
      (set_embeddings env supply 0 doc name).1 = Except.ok (st1, vs1, ids1) →
      (set_embeddings env supply doc.length doc name).1
        = Except.ok (st2, vs2, ids2) →
      ids1 ≠ ids2) := by
  refine ⟨rfl, ?_⟩
  intro st1 vs1 ids1 st2 vs2 ids2 h1 h2 heq
  obtain ⟨-, -, hids1, -⟩ := set_embeddings_ok_inv env supply 0 doc name
    st1 vs1 ids1 h1
  obtain ⟨-, -, hids2, -⟩ := set_embeddings_ok_inv env supply doc.length doc
    name st2 vs2 ids2 h2
  subst hids1
  subst hids2
  have hn : 0 < doc.length := List.length_pos.mpr hdoc
  obtain ⟨m, hm⟩ : ∃ m, doc.length = m + 1 := ⟨doc.length - 1, by omega⟩
  rw [hm] at heq
  unfold genUuids at heq
  rw [List.range_succ_eq_map] at heq
  simp only [List.map_cons, List.cons.injEq] at heq
  have h0 : (0 : Nat) = m + 1 + 0 := hinj (by simpa using heq.1)
  omega

/-- Witness for C9 at a concrete one-chunk document. -/
theorem loader_deterministic_fresh_ids_witness :
    genUuids supplyEx 0 1 ≠ genUuids supplyEx 1 1 :=
  (loader_deterministic_fresh_ids loaderEx FILE_PATH envEx supplyEx
    [docPage5] "qdrant_test" supplyEx_injective (List.cons_ne_nil _ _)).2
    stEx vsEx (genUuids supplyEx 0 1) stEx vsEx (genUuids supplyEx 1 1) rfl rfl

/-- Reading back a batch inserted for collection n recovers exactly the
documents, id-aligned, whenever at least as many ids as documents were given. -/
theorem filterMap_zipWith_self (n : String) :
    ∀ (ids : List String) (docs : List Document), docs.length ≤ ids.length →
      (List.zipWith (fun i d => (n, i, d)) ids docs).filterMap
        (fun t => if t.1 = n then some t.2.2 else none) = docs := by
  intro ids
  induction ids with
  | nil =>
      intro docs h
      cases docs with
      | nil => rfl
      | cons d ds => simp at h
  | cons i rest ih =>
      intro docs h
      cases docs with
      | nil => rfl
      | cons d ds =>
          have h2 := ih ds (by simpa using h)
          simp [List.filterMap_cons, h2]

/-- The stored payloads of collection n after inserting a batch into a state
with no points are exactly the batch documents. -/
theorem pointsOf_insertPoints_empty (cols : List (String × CollectionConfig))
    (n : String) (ids : List String) (docs : List Document)
    (h : docs.length ≤ ids.length) :
    pointsOf (insertPoints ⟨cols, []⟩ n ids docs) n = docs := by
  simpa [pointsOf, insertPoints] using filterMap_zipWith_self n ids docs h

/-- Claim C4: after set_embeddings and a successful indexing of the chunks, a
similarity search on the same collection with k at least 1 returns between 1
and min k n chunks, every one drawn from the indexed chunk set, for any
backend ranking that permutes the stored chunks. -/
theorem similarity_search_bounded (env : List (String × String))
    (supply : Nat → String) (ctr : Nat) (doc : List Document) (name : String)
    (q : String) (k : Nat) (rank : List Document → List Document)
    (st st2 : QdrantState) (vs : VectorStore) (ids : List String) (r : PyVal)
    (hperm : ∀ l, (rank l).Perm l) (hk : 1 ≤ k) (hdoc : doc ≠ [])
    (hsetup : (set_embeddings env supply ctr doc name).1
      = Except.ok (st, vs, ids))
    (hadd : (add_doc vs st doc ids (Except.ok ())).1 = Except.ok (r, st2)) :
    1 ≤ (similarity_search st2 vs rank q k).length ∧
    (similarity_search st2 vs rank q k).length ≤ min k doc.length ∧
    ∀ d ∈ similarity_search st2 vs rank q k, d ∈ doc := by
  obtain ⟨hst, hvs, hids, -⟩ := set_embeddings_ok_inv env supply ctr doc name
    st vs ids hsetup
  cases doc with
  | nil => exact absurd rfl hdoc
  | cons dd rest =>
    have hst2 : st2 = insertPoints st vs.collection_name ids (dd :: rest) := by
      simp [add_doc] at hadd
      exact hadd.2.symm
    subst hst
    have hlenids : (dd :: rest).length ≤ ids.length := by
      rw [hids]
      simp [genUuids]
    have hpts : pointsOf st2 vs.collection_name = dd :: rest := by
      rw [hst2, hvs]
      exact pointsOf_insertPoints_empty _ name ids (dd :: rest) hlenids
    have hres : similarity_search st2 vs rank q k
        = (rank (dd :: rest)).take k := by
      simp [similarity_search, hpts]
    rw [hres]
    have hlen : (rank (dd :: rest)).length = (dd :: rest).length :=
      (hperm _).length_eq
    refine ⟨?_, ?_, ?_⟩
    · rw [List.length_take, hlen]
      exact le_min hk (by simp)
    · rw [List.length_take, hlen]
    · intro d hd
      have h1 : d ∈ rank (dd :: rest) := List.take_subset _ _ hd
      exact ((hperm _).mem_iff).mp h1

/-- Witness for C4 at a concrete two-chunk run with the identity ranking. -/
theorem similarity_search_bounded_witness :
    1 ≤ (similarity_search
      (insertPoints stEx "qdrant_test" (genUuids supplyEx 0 2)
        [docPage5, docPage1])
      vsEx rankEx "q" 3).length :=
  (similarity_search_bounded envEx supplyEx 0 [docPage5, docPage1]
    "qdrant_test" "q" 3 rankEx stEx
    (insertPoints stEx "qdrant_test" (genUuids supplyEx 0 2)
      [docPage5, docPage1])
    vsEx (genUuids supplyEx 0 2) PyVal.none
    (fun l => List.Perm.refl l) (by omega) (List.cons_ne_nil _ _)
    rfl rfl).1

/-- Claim C6: only insertion errors are swallowed. A loader failure propagates
out of the run unchanged; a failing backend search call propagates; a failing
generation call propagates; but with any insertion outcome, including a
failure, the run continues through search and generation and still returns the
generated answer. -/
theorem error_propagation_policy (env : List (String × String))
    (loader : String → Except PyExc (List Document)) (supply : Nat → String)
    (addOutcome searchOutcome : Except PyExc Unit)
    (rank : List Document → List Document)
    (completion : ChatRequest → Except PyExc (List Choice)) (e : PyExc)
    (ans : String) :
    (loader FILE_PATH = Except.error e →
      mainRun env loader supply addOutcome searchOutcome rank completion
        = (Except.error e, [])) ∧
    (∀ doc, loader FILE_PATH = Except.ok doc → doc ≠ [] →
      ∀ key, envGet env "JINA_API_KEY" = some key →
      (searchOutcome = Except.error e →
        (mainRun env loader supply addOutcome searchOutcome rank
          completion).1 = Except.error e) ∧
      ((∀ r2, completion r2 = Except.error e) →
        searchOutcome = Except.ok () →
        (mainRun env loader supply addOutcome searchOutcome rank
          completion).1 = Except.error e) ∧
      ((∀ r2, completion r2 = Except.ok [⟨ans⟩]) →
        searchOutcome = Except.ok () →
        (mainRun env loader supply addOutcome searchOutcome rank
          completion).1 = Except.ok ans)) := by
  constructor
  · intro h
    simp [mainRun, load_docs, h]
  · intro doc hload hne key hkey
    cases doc with
    | nil => exact absurd rfl hne
    | cons dd rest =>
      refine ⟨?_, ?_, ?_⟩
      · intro hs
        cases addOutcome with
        | ok u =>
            simp [mainRun, load_docs, hload, set_embeddings, hkey, add_doc, hs]
        | error ee =>
            simp [mainRun, load_docs, hload, set_embeddings, hkey, add_doc, hs]
      · intro hc hs
        cases addOutcome with
        | ok u =>
            simp [mainRun, load_docs, hload, set_embeddings, hkey, add_doc,
              hs, generate_answer_with_gpt4, hc]
        | error ee =>
            simp [mainRun, load_docs, hload, set_embeddings, hkey, add_doc,
              hs, generate_answer_with_gpt4, hc]
      · intro hc hs
        cases addOutcome with
        | ok u =>
            simp [mainRun, load_docs, hload, set_embeddings, hkey, add_doc,
              hs, generate_answer_with_gpt4, hc]
        | error ee =>
            simp [mainRun, load_docs, hload, set_embeddings, hkey, add_doc,
              hs, generate_answer_with_gpt4, hc]

/-- Witness for C6: with a failing insertion the run still produces the
generated answer. -/
theorem error_propagation_policy_witness :
    (mainRun envEx loaderEx supplyEx
      (Except.error (PyExc.connectionError "down")) (Except.ok ()) rankEx
      completionEx).1 = Except.ok "forty two" :=
  ((error_propagation_policy envEx loaderEx supplyEx
      (Except.error (PyExc.connectionError "down")) (Except.ok ()) rankEx
      completionEx (PyExc.connectionError "down") "forty two").2
    [docPage5, docPage1] rfl (List.cons_ne_nil _ _) "k" rfl).2.2
    (fun r2 => rfl) rfl
